import Mathlib

/-!
Shallow embedding of `nas/data/anon.py` (the `FSPeptide` dataset loader).

Python values are modelled as follows: numpy arrays become a shape list
together with a flat data list of integers (the element dtype is irrelevant
to every property studied here); the filesystem becomes an association list
from paths (lists of segments, as produced by `os.path.join`) to file
contents (`.npz` archives mapping keys to arrays, or flat `.npy` arrays);
Python exceptions become an error type carried through `Except`; and the
I/O actions a computation performs (existence checks, network transfers,
directory creation, reads, writes, deletions, prints) are recorded in an
explicit event trace returned next to the result.

Several witnesses evaluate the whole pipeline on concrete stores, which
takes deep definitional reduction.
-/

set_option maxRecDepth 100000

/-- Python exceptions that the modelled code can raise. -/
inductive PyErr where
  | valueError (msg : String)
  | runtimeError (msg : String)
  | indexError
  | attributeError (name : String)
  | keyError (key : String)
  | fileNotFound (path : List String)
  | typeError
  | urlError (url : String)
deriving DecidableEq

/-- A numpy array: its shape and its flat (row-major) data.  Element values
are modelled as integers; nothing in the repository depends on the dtype. -/
structure NpArray where
  shape : List Nat
  data : List Int
deriving DecidableEq

/-- Contents of a file on disk: either a compressed `.npz` archive mapping
names to arrays, or a flat `.npy` array as written by `np.save`. -/
inductive FileData where
  | npz (entries : List (String × NpArray))
  | npy (arr : NpArray)
deriving DecidableEq

/-- A filesystem path, as a list of segments (`os.path.join` appends one). -/
abbrev FPath := List String

/-- The file store: most recent write first. Directories are not tracked;
`makedir_exist_ok` only records an event. -/
abbrev FStore := List (FPath × FileData)

/-- One observable I/O action. -/
inductive Event where
  | existsCheck (p : FPath)
  | fetched (url : String) (dest : FPath)
  | mkdir (p : FPath)
  | readFile (p : FPath)
  | writeFile (p : FPath)
  | unlink (p : FPath)
  | printMsg (s : String)
deriving DecidableEq

def fsLookup (fs : FStore) (p : FPath) : Option FileData :=
  match fs with
  | [] => none
  | (q, d) :: rest => if q = p then some d else fsLookup rest p

def fsWrite (fs : FStore) (p : FPath) (d : FileData) : FStore :=
  (p, d) :: fs

/-- `os.unlink`: remove the entry (every shadowed copy of it as well). -/
def fsRemove (fs : FStore) (p : FPath) : FStore :=
  fs.filter (fun e => !(e.1 == p))

def pathExists (fs : FStore) (p : FPath) : Bool :=
  (fsLookup fs p).isSome

def fsWriteAll (fs : FStore) : List (FPath × FileData) → FStore
  | [] => fs
  | (p, d) :: rest => fsWriteAll (fsWrite fs p d) rest

/-- Key lookup in an opened `.npz` archive (`data[key]`); a missing key
raises `KeyError`. -/
def npzGet (entries : List (String × NpArray)) (key : String) : Except PyErr NpArray :=
  match entries.find? (fun e => e.1 == key) with
  | some e => Except.ok e.2
  | none => Except.error (PyErr.keyError key)

/-- `np.load` on an `.npz` archive path. A missing file raises
`FileNotFoundError`; a flat array stored there is modelled as a load error,
since no execution path of the repository ever hits that case. -/
def np_load_npz (fs : FStore) (p : FPath) : Except PyErr (List (String × NpArray)) :=
  match fsLookup fs p with
  | some (FileData.npz entries) => Except.ok entries
  | some (FileData.npy _) => Except.error PyErr.typeError
  | none => Except.error (PyErr.fileNotFound p)

/-- `np.load` on an `.npy` file path, as used for the processed files. -/
def np_load_npy (fs : FStore) (p : FPath) : Except PyErr NpArray :=
  match fsLookup fs p with
  | some (FileData.npy a) => Except.ok a
  | some (FileData.npz _) => Except.error PyErr.typeError
  | none => Except.error (PyErr.fileNotFound p)

/-- `arry.reshape(-1, 21, 21, 1)`: numpy infers the leading dimension when
the total element count is divisible by 21 * 21 * 1 = 441 and raises
`ValueError` otherwise. -/
def np_reshape_images (a : NpArray) : Except PyErr NpArray :=
  if a.data.length % 441 = 0 then
    Except.ok ⟨[a.data.length / 441, 21, 21, 1], a.data⟩
  else
    Except.error (PyErr.valueError "cannot reshape array into shape (21,21,1)")

/-- `arr[idx]` on a numpy array with a Python integer index: indices in
`[0, n)` select the subarray directly, indices in `[-n, 0)` count from the
end, anything else raises `IndexError` (`n` is the leading dimension). -/
def np_index (a : NpArray) (idx : Int) : Except PyErr NpArray :=
  let n : Nat := a.shape.headD 0
  let rest : List Nat := a.shape.tail
  let m : Nat := rest.prod
  if 0 ≤ idx ∧ idx < (n : Int) then
    Except.ok ⟨rest, (a.data.drop (idx.toNat * m)).take m⟩
  else if -(n : Int) ≤ idx ∧ idx < 0 then
    Except.ok ⟨rest, (a.data.drop ((idx + (n : Int)).toNat * m)).take m⟩
  else
    Except.error PyErr.indexError

/-- `os.path.expanduser`: a leading `~` is replaced by the home directory
(the `~user` form, which queries the password database, is outside scope). -/
def os_path_expanduser (home p : String) : String :=
  if p = "~" then home
  else if p.startsWith "~/" then home ++ p.drop 1
  else p

/-- `url.rpartition(chr(47))[2]`: everything after the last slash, or the
whole string when it holds no slash (rpartition then returns the string
itself as the third component). -/
def url_basename (url : String) : String :=
  String.mk (url.data.foldl (fun acc c => if c = '/' then [] else acc ++ [c]) [])

/-- The runtime state of a constructed `FSPeptide` dataset object.  Python
objects have per-instance attribute dictionaries; the two transform
attributes are therefore modelled as `Option (Option _)`: the outer `none`
means the attribute was never assigned (reading it raises
`AttributeError`), `some none` models an attribute holding Python `None`,
and `some (some f)` an attribute holding a callable. -/
structure FSPeptide where
  root : String
  partition : String
  data : NpArray
  targets : NpArray
  transform : Option (Option (NpArray → NpArray))
  target_transform : Option (Option (NpArray → NpArray))

def FSPeptide.urls : List String :=
  ["https://raw.githubusercontent.com/yngtodd/moles/master/fs-peptide/train-contactmaps.npz",
   "https://raw.githubusercontent.com/yngtodd/moles/master/fs-peptide/train-labels.npz",
   "https://raw.githubusercontent.com/yngtodd/moles/master/fs-peptide/validation-contactmaps.npz",
   "https://raw.githubusercontent.com/yngtodd/moles/master/fs-peptide/validation-labels.npz",
   "https://raw.githubusercontent.com/yngtodd/moles/master/fs-peptide/test-contactmaps.npz",
   "https://raw.githubusercontent.com/yngtodd/moles/master/fs-peptide/test-labels.npz"]

def FSPeptide.training_contactmap_file : String := "train_contactmaps.npy"

def FSPeptide.training_label_file : String := "train_labels.npy"

def FSPeptide.validation_contactmap_file : String := "validation_contactmaps.npy"

def FSPeptide.validation_label_file : String := "validation_labels.npy"

def FSPeptide.test_contactmap_file : String := "test_contactmaps.npy"

def FSPeptide.test_label_file : String := "test_labels.npy"

/-- `os.path.join(self.root, self.__class__.__name__, "raw")`. -/
def FSPeptide.raw_folder (root : String) : FPath := [root, "FSPeptide", "raw"]

/-- `os.path.join(self.root, self.__class__.__name__, "processed")`. -/
def FSPeptide.processed_folder (root : String) : FPath := [root, "FSPeptide", "processed"]

/-- The six processed file names, in the order `_check_exists` tests them. -/
def FSPeptide.processed_files : List String :=
  [FSPeptide.training_contactmap_file, FSPeptide.training_label_file,
   FSPeptide.validation_contactmap_file, FSPeptide.validation_label_file,
   FSPeptide.test_contactmap_file, FSPeptide.test_label_file]

def FSPeptide.processed_paths (root : String) : List FPath :=
  FSPeptide.processed_files.map (fun f => FSPeptide.processed_folder root ++ [f])

/-- Sequential conjunction of `os.path.exists` calls: Python `and`
short-circuits, so checks after the first failure are not performed.
Returns the boolean together with the existence-check events executed. -/
def existsAllChecks (fs : FStore) : List FPath → Bool × List Event
  | [] => (true, [])
  | p :: ps =>
    if pathExists fs p then
      let r := existsAllChecks fs ps
      (r.1, Event.existsCheck p :: r.2)
    else
      (false, [Event.existsCheck p])

/-- `FSPeptide._check_exists`: all six processed files exist. -/
def FSPeptide.check_exists (fs : FStore) (root : String) : Bool × List Event :=
  existsAllChecks fs (FSPeptide.processed_paths root)

/-- `read_label_file`: open the archive and return its `arry` entry as
stored. -/
def read_label_file (fs : FStore) (p : FPath) : Except PyErr NpArray :=
  match np_load_npz fs p with
  | Except.error e => Except.error e
  | Except.ok entries => npzGet entries "arry"

/-- `read_image_file`: open the archive, take its `arry` entry and reshape
it to `(-1, 21, 21, 1)`. -/
def read_image_file (fs : FStore) (p : FPath) : Except PyErr NpArray :=
  match np_load_npz fs p with
  | Except.error e => Except.error e
  | Except.ok entries =>
    match npzGet entries "arry" with
    | Except.error e => Except.error e
    | Except.ok a => np_reshape_images a

/-- Render a path for the `Extracting {}` print message. -/
def fpathStr (p : FPath) : String := String.intercalate "/" p

/-- `FSPeptide.extract_array`: print, open the archive, bind its `arry`
entry and discard it (the function returns nothing), then delete the
source archive only when `remove_finished` is set. -/
def FSPeptide.extract_array (fs : FStore) (npz_path : FPath) (remove_finished : Bool) :
    Except PyErr Unit × FStore × List Event :=
  let pe := Event.printMsg ("Extracting " ++ fpathStr npz_path)
  match np_load_npz fs npz_path with
  | Except.error e => (Except.error e, fs, [pe, Event.readFile npz_path])
  | Except.ok entries =>
    match npzGet entries "arry" with
    | Except.error e => (Except.error e, fs, [pe, Event.readFile npz_path])
    | Except.ok _ =>
      if remove_finished then
        (Except.ok (), fsRemove fs npz_path, [pe, Event.readFile npz_path, Event.unlink npz_path])
      else
        (Except.ok (), fs, [pe, Event.readFile npz_path])

/-- The remote side of `download_url`: what each URL serves, as the `.npz`
entries of the archive, or `none` when the transfer fails. -/
abbrev Remote := String → Option (List (String × NpArray))

/-- Modelled from the spec: `download_url` lives in `nas/data/utils.py`,
which is not under `src/`.  Per the spec it downloads the archive into the
raw directory under its basename and skips the transfer when a file of
that name already exists (the download helper is itself idempotent); a
transport failure propagates unhandled. -/
def download_url (remote : Remote) (fs : FStore) (url : String) (file_path : FPath) :
    Except PyErr FStore × List Event :=
  if pathExists fs file_path then
    (Except.ok fs, [Event.existsCheck file_path])
  else
    match remote url with
    | some content =>
      (Except.ok (fsWrite fs file_path (FileData.npz content)),
       [Event.existsCheck file_path, Event.fetched url file_path])
    | none =>
      (Except.error (PyErr.urlError url), [Event.existsCheck file_path, Event.fetched url file_path])

/-- Modelled from the spec: `makedir_exist_ok` lives in `nas/data/utils.py`,
which is not under `src/`.  Per the spec it is idempotent directory
creation; directories are not part of the file store, so only the event is
recorded. -/
def makedir_exist_ok (fs : FStore) (p : FPath) : FStore × List Event :=
  (fs, [Event.mkdir p])

/-- The `for url in self.urls` loop of `FSPeptide.download`: fetch each
archive into the raw folder under its basename, then extract (and discard)
its array with `remove_finished=False`. -/
def download_loop (remote : Remote) (fs : FStore) (root : String) :
    List String → Except PyErr FStore × List Event
  | [] => (Except.ok fs, [])
  | url :: rest =>
    let filename := url_basename url
    let file_path := FSPeptide.raw_folder root ++ [filename]
    match download_url remote fs url file_path with
    | (Except.error e, es) => (Except.error e, es)
    | (Except.ok fs1, es) =>
      match FSPeptide.extract_array fs1 file_path false with
      | (Except.error e, _, es2) => (Except.error e, es ++ es2)
      | (Except.ok _, fs2, es2) =>
        let r := download_loop remote fs2 root rest
        (r.1, es ++ es2 ++ r.2)

/-- The three `(images, labels)` pairs built in the processing step. -/
structure ProcessedSets where
  training_images : NpArray
  training_labels : NpArray
  validation_images : NpArray
  validation_labels : NpArray
  test_images : NpArray
  test_labels : NpArray
deriving DecidableEq

/-- The processing step of `FSPeptide.download`: read the six raw archives
back, reshaping each contactmap array and taking each label array as
stored.  Any failure propagates. -/
def read_sets (fs : FStore) (root : String) : Except PyErr ProcessedSets :=
  match read_image_file fs (FSPeptide.raw_folder root ++ ["train-contactmaps.npz"]) with
  | Except.error e => Except.error e
  | Except.ok ti =>
  match read_label_file fs (FSPeptide.raw_folder root ++ ["train-labels.npz"]) with
  | Except.error e => Except.error e
  | Except.ok tl =>
  match read_image_file fs (FSPeptide.raw_folder root ++ ["validation-contactmaps.npz"]) with
  | Except.error e => Except.error e
  | Except.ok vi =>
  match read_label_file fs (FSPeptide.raw_folder root ++ ["validation-labels.npz"]) with
  | Except.error e => Except.error e
  | Except.ok vl =>
  match read_image_file fs (FSPeptide.raw_folder root ++ ["test-contactmaps.npz"]) with
  | Except.error e => Except.error e
  | Except.ok wi =>
  match read_label_file fs (FSPeptide.raw_folder root ++ ["test-labels.npz"]) with
  | Except.error e => Except.error e
  | Except.ok wl => Except.ok ⟨ti, tl, vi, vl, wi, wl⟩

/-- The six `np.save` targets of `FSPeptide.download`, in write order. -/
def save_entries (root : String) (s : ProcessedSets) : List (FPath × FileData) :=
  [(FSPeptide.processed_folder root ++ [FSPeptide.training_contactmap_file], FileData.npy s.training_images),
   (FSPeptide.processed_folder root ++ [FSPeptide.training_label_file], FileData.npy s.training_labels),
   (FSPeptide.processed_folder root ++ [FSPeptide.validation_contactmap_file], FileData.npy s.validation_images),
   (FSPeptide.processed_folder root ++ [FSPeptide.validation_label_file], FileData.npy s.validation_labels),
   (FSPeptide.processed_folder root ++ [FSPeptide.test_contactmap_file], FileData.npy s.test_images),
   (FSPeptide.processed_folder root ++ [FSPeptide.test_label_file], FileData.npy s.test_labels)]

/-- The persisting step of `FSPeptide.download`: six `np.save` calls. -/
def save_processed (fs : FStore) (root : String) (s : ProcessedSets) : FStore × List Event :=
  (fsWriteAll fs (save_entries root s), (save_entries root s).map (fun e => Event.writeFile e.1))

/-- `FSPeptide.download`: return immediately when all six processed files
exist; otherwise create the two cache directories, fetch and extract the
six archives, process them and save the six processed files. -/
def FSPeptide.download (remote : Remote) (fs : FStore) (root : String) :
    Except PyErr FStore × List Event :=
  let c := FSPeptide.check_exists fs root
  if c.1 then
    (Except.ok fs, c.2)
  else
    let m1 := makedir_exist_ok fs (FSPeptide.raw_folder root)
    let m2 := makedir_exist_ok m1.1 (FSPeptide.processed_folder root)
    match download_loop remote m2.1 root FSPeptide.urls with
    | (Except.error e, es) => (Except.error e, c.2 ++ m1.2 ++ m2.2 ++ es)
    | (Except.ok fs1, es) =>
      match read_sets fs1 root with
      | Except.error e =>
        (Except.error e, c.2 ++ m1.2 ++ m2.2 ++ es ++ [Event.printMsg "Processing..."])
      | Except.ok sets =>
        let r := save_processed fs1 root sets
        (Except.ok r.1,
         c.2 ++ m1.2 ++ m2.2 ++ es ++ [Event.printMsg "Processing..."] ++ r.2 ++ [Event.printMsg "Done!"])

/-- The partition dispatch of `FSPeptide.__init__`: pick the pair of
processed file names, or raise the invalid-partition `ValueError`. -/
def partition_files (partition : String) : Except PyErr (String × String) :=
  if partition = "train" then
    Except.ok (FSPeptide.training_contactmap_file, FSPeptide.training_label_file)
  else if partition = "validation" then
    Except.ok (FSPeptide.validation_contactmap_file, FSPeptide.validation_label_file)
  else if partition = "test" then
    Except.ok (FSPeptide.test_contactmap_file, FSPeptide.test_label_file)
  else
    Except.error (PyErr.valueError "Partition must either be \x27train\x27, \x27validation\x27, or \x27test\x27.")

/-- `FSPeptide.__init__`: expand the root, optionally download, check the
cache, dispatch on the partition, and load the two processed arrays.  Note
the source never assigns the `transform` and `target_transform`
attributes, so the constructed object carries `none` for both. -/
def FSPeptide.init (remote : Remote) (home : String) (fs : FStore)
    (root partition : String) (download : Bool) :
    Except PyErr FSPeptide × List Event :=
  let r := os_path_expanduser home root
  match (if download then FSPeptide.download remote fs r else (Except.ok fs, [])) with
  | (Except.error e, es) => (Except.error e, es)
  | (Except.ok fs1, es) =>
    let c := FSPeptide.check_exists fs1 r
    if !c.1 then
      (Except.error (PyErr.runtimeError "Dataset not found. You can use download=True to download it"),
       es ++ c.2)
    else
      match partition_files partition with
      | Except.error e => (Except.error e, es ++ c.2)
      | Except.ok (data_file, label_file) =>
        let dp := FSPeptide.processed_folder r ++ [data_file]
        let lp := FSPeptide.processed_folder r ++ [label_file]
        match np_load_npy fs1 dp with
        | Except.error e => (Except.error e, es ++ c.2 ++ [Event.readFile dp])
        | Except.ok dataArr =>
          match np_load_npy fs1 lp with
          | Except.error e => (Except.error e, es ++ c.2 ++ [Event.readFile dp, Event.readFile lp])
          | Except.ok targetsArr =>
            (Except.ok ⟨r, partition, dataArr, targetsArr, none, none⟩,
             es ++ c.2 ++ [Event.readFile dp, Event.readFile lp])

/-- `FSPeptide.__len__`: `len(self.data)`, i.e. the leading dimension of
the loaded contactmap array. -/
def FSPeptide.len (ds : FSPeptide) : Nat := ds.data.shape.headD 0

/-- `FSPeptide.load_data`. -/
def FSPeptide.load_data (ds : FSPeptide) : NpArray × NpArray := (ds.data, ds.targets)

/-- `FSPeptide.__getitem__`: index both arrays, then run each optional
transform.  Reading an attribute that was never assigned raises
`AttributeError`. -/
def FSPeptide.getitem (ds : FSPeptide) (idx : Int) : Except PyErr (NpArray × NpArray) :=
  match np_index ds.data idx with
  | Except.error e => Except.error e
  | Except.ok contactmap =>
    match np_index ds.targets idx with
    | Except.error e => Except.error e
    | Except.ok target =>
      match ds.transform with
      | none => Except.error (PyErr.attributeError "transform")
      | some t =>
        let contactmap := match t with | none => contactmap | some f => f contactmap
        match ds.target_transform with
        | none => Except.error (PyErr.attributeError "target_transform")
        | some tt =>
          let target := match tt with | none => target | some f => f target
          Except.ok (contactmap, target)

/-- `FSPeptide.__repr__`: the four-line summary string. -/
def FSPeptide.repr (ds : FSPeptide) : String :=
  "Dataset FSPeptide" ++ "\n" ++
  "    Number of datapoints: " ++ toString ds.len ++ "\n" ++
  "    Split: " ++ ds.partition ++ "\n" ++
  "    Root Location: " ++ ds.root ++ "\n"

/-! ## Helper lemmas -/

theorem fsLookup_fsWrite (fs : FStore) (p q : FPath) (d : FileData) :
    fsLookup (fsWrite fs p d) q = if p = q then some d else fsLookup fs q := rfl

theorem pathExists_fsWrite_self (fs : FStore) (p : FPath) (d : FileData) :
    pathExists (fsWrite fs p d) p = true := by
  simp [pathExists, fsLookup_fsWrite]

theorem pathExists_fsWrite_mono (fs : FStore) (p q : FPath) (d : FileData)
    (h : pathExists fs q = true) : pathExists (fsWrite fs p d) q = true := by
  by_cases hpq : p = q
  · simp [pathExists, fsLookup_fsWrite, hpq]
  · simpa [pathExists, fsLookup_fsWrite, hpq] using h

theorem pathExists_fsWriteAll_mono (es : List (FPath × FileData)) (fs : FStore) (q : FPath)
    (h : pathExists fs q = true) : pathExists (fsWriteAll fs es) q = true := by
  induction es generalizing fs with
  | nil => exact h
  | cons e rest ih =>
    obtain ⟨p, d⟩ := e
    exact ih (fsWrite fs p d) (pathExists_fsWrite_mono fs p q d h)

theorem pathExists_fsWriteAll_mem (es : List (FPath × FileData)) (fs : FStore) (q : FPath)
    (h : q ∈ es.map Prod.fst) : pathExists (fsWriteAll fs es) q = true := by
  induction es generalizing fs with
  | nil => simp at h
  | cons e rest ih =>
    obtain ⟨p, d⟩ := e
    rw [List.map_cons, List.mem_cons] at h
    rcases h with h | h
    · subst h
      exact pathExists_fsWriteAll_mono rest (fsWrite fs q d) q (pathExists_fsWrite_self fs q d)
    · exact ih (fsWrite fs p d) h

theorem fsLookup_fsRemove_self (fs : FStore) (p : FPath) :
    fsLookup (fsRemove fs p) p = none := by
  induction fs with
  | nil => rfl
  | cons e rest ih =>
    obtain ⟨q, d⟩ := e
    by_cases hqp : q = p
    · simpa [fsRemove, List.filter_cons, hqp] using ih
    · simpa [fsRemove, List.filter_cons, hqp, fsLookup] using ih

theorem fsLookup_fsRemove_ne (fs : FStore) (p q : FPath) (h : q ≠ p) :
    fsLookup (fsRemove fs p) q = fsLookup fs q := by
  induction fs with
  | nil => rfl
  | cons e rest ih =>
    obtain ⟨r, d⟩ := e
    by_cases hrp : r = p
    · have hrq : ¬r = q := fun hh => h (by rw [← hh, hrp])
      rw [show fsRemove ((r, d) :: rest) p = fsRemove rest p from by
        simp [fsRemove, List.filter_cons, hrp]]
      rw [ih]
      simp [fsLookup, hrq]
    · rw [show fsRemove ((r, d) :: rest) p = (r, d) :: fsRemove rest p from by
        simp [fsRemove, List.filter_cons, hrp]]
      by_cases hrq : r = q
      · simp [fsLookup, hrq]
      · simp [fsLookup, hrq, ih]

theorem existsAllChecks_fst (fs : FStore) (ps : List FPath) :
    (existsAllChecks fs ps).1 = ps.all (fun p => pathExists fs p) := by
  induction ps with
  | nil => rfl
  | cons p ps ih =>
    by_cases h : pathExists fs p <;> simp [existsAllChecks, h, ih]

theorem existsAllChecks_eq (fs : FStore) (ps : List FPath)
    (h : (existsAllChecks fs ps).1 = true) :
    existsAllChecks fs ps = (true, ps.map Event.existsCheck) := by
  induction ps with
  | nil => rfl
  | cons p ps ih =>
    by_cases hp : pathExists fs p
    · have h2 : (existsAllChecks fs ps).1 = true := by simpa [existsAllChecks, hp] using h
      simp [existsAllChecks, hp, ih h2]
    · simp [existsAllChecks, hp] at h

theorem save_entries_fst (root : String) (s : ProcessedSets) :
    (save_entries root s).map Prod.fst = FSPeptide.processed_paths root := rfl

theorem check_exists_save (fs : FStore) (root : String) (s : ProcessedSets) :
    (FSPeptide.check_exists (save_processed fs root s).1 root).1 = true := by
  unfold FSPeptide.check_exists save_processed
  rw [existsAllChecks_fst, List.all_eq_true]
  intro p hp
  apply pathExists_fsWriteAll_mem
  rw [save_entries_fst]
  exact hp

theorem download_shortcircuit (remote : Remote) (fs : FStore) (root : String)
    (h : (FSPeptide.check_exists fs root).1 = true) :
    FSPeptide.download remote fs root =
      (Except.ok fs, (FSPeptide.processed_paths root).map Event.existsCheck) := by
  have he := existsAllChecks_eq fs (FSPeptide.processed_paths root) h
  simp only [FSPeptide.download, FSPeptide.check_exists] at *
  rw [he]
  simp

theorem download_ok_check (remote : Remote) (fs fs2 : FStore) (root : String)
    (es : List Event) (h : FSPeptide.download remote fs root = (Except.ok fs2, es)) :
    (FSPeptide.check_exists fs2 root).1 = true := by
  by_cases hb : (FSPeptide.check_exists fs root).1 = true
  · rw [download_shortcircuit remote fs root hb] at h
    have hfs : fs = fs2 := by simpa using congrArg Prod.fst h
    rw [← hfs]
    exact hb
  · rcases hdl : download_loop remote fs root FSPeptide.urls with ⟨r1, es1⟩
    cases r1 with
    | error e =>
      simp only [FSPeptide.download, makedir_exist_ok, hdl] at h
      rw [if_neg hb] at h
      simp at h
    | ok fs1 =>
      rcases hrs : read_sets fs1 root with e | sets
      · simp only [FSPeptide.download, makedir_exist_ok, hdl, hrs] at h
        rw [if_neg hb] at h
        simp at h
      · simp only [FSPeptide.download, makedir_exist_ok, hdl, hrs] at h
        rw [if_neg hb] at h
        have hfs : (save_processed fs1 root sets).1 = fs2 := by
          simpa using congrArg Prod.fst h
        rw [← hfs]
        exact check_exists_save fs1 root sets

theorem np_index_error_iff (a : NpArray) (idx : Int) :
    np_index a idx = Except.error PyErr.indexError ↔
      (idx < -((a.shape.headD 0 : Nat) : Int) ∨ ((a.shape.headD 0 : Nat) : Int) ≤ idx) := by
  simp only [np_index]
  split_ifs with h1 h2
  · simp only [reduceCtorEq, false_iff]
    omega
  · simp only [reduceCtorEq, false_iff]
    omega
  · simp only [true_iff]
    omega

theorem partition_files_error (p : String) (e : PyErr)
    (h : partition_files p = Except.error e) :
    e = PyErr.valueError "Partition must either be \x27train\x27, \x27validation\x27, or \x27test\x27." := by
  unfold partition_files at h
  split_ifs at h <;> cases h <;> rfl

theorem np_load_npy_error (fs : FStore) (p : FPath) (e : PyErr)
    (h : np_load_npy fs p = Except.error e) :
    e = PyErr.typeError ∨ e = PyErr.fileNotFound p := by
  unfold np_load_npy at h
  rcases hl : fsLookup fs p with _ | d
  · rw [hl] at h
    right
    exact (Except.error.inj h).symm
  · rw [hl] at h
    cases d with
    | npz entries => left; exact (Except.error.inj h).symm
    | npy a => cases h

theorem string_append_assoc (a b c : String) : a ++ b ++ c = a ++ (b ++ c) := by
  cases a with | mk la =>
  cases b with | mk lb =>
  cases c with | mk lc =>
  show String.mk (la ++ lb ++ lc) = String.mk (la ++ (lb ++ lc))
  rw [List.append_assoc]

/-! ## Concrete fixtures

Small concrete stores and remotes used to instantiate the theorems.  The
array contents of the processed fixtures are arbitrary: nothing in the
loader constrains what a processed file holds. -/

/-- A complete processed cache under root `r`. -/
def fixStore : FStore :=
  [(["r", "FSPeptide", "processed", "train_contactmaps.npy"], FileData.npy ⟨[2], [10, 20]⟩),
   (["r", "FSPeptide", "processed", "train_labels.npy"], FileData.npy ⟨[2], [0, 1]⟩),
   (["r", "FSPeptide", "processed", "validation_contactmaps.npy"], FileData.npy ⟨[1], [30]⟩),
   (["r", "FSPeptide", "processed", "validation_labels.npy"], FileData.npy ⟨[1], [2]⟩),
   (["r", "FSPeptide", "processed", "test_contactmaps.npy"], FileData.npy ⟨[1], [40]⟩),
   (["r", "FSPeptide", "processed", "test_labels.npy"], FileData.npy ⟨[1], [3]⟩)]

/-- A remote on which every transfer fails; used where no download runs. -/
def fixRemoteNone : Remote := fun _ => none

/-- The handle constructed over `fixStore` with partition `train`. -/
def fixHandle : Option FSPeptide :=
  match (FSPeptide.init fixRemoteNone "h" fixStore "r" "train" false).1 with
  | Except.ok ds => some ds
  | Except.error _ => none

/-- The same handle, written out. -/
def fixDS : FSPeptide := ⟨"r", "train", ⟨[2], [10, 20]⟩, ⟨[2], [0, 1]⟩, none, none⟩

/-- Raw archives holding a 441-element contactmap array and a 2-element
label array. -/
def fixRaw : FStore :=
  [(["r", "FSPeptide", "raw", "train-contactmaps.npz"],
    FileData.npz [("arry", ⟨[441], List.replicate 441 0⟩)]),
   (["r", "FSPeptide", "raw", "train-labels.npz"],
    FileData.npz [("arry", ⟨[2], [0, 1]⟩)])]

/-- A raw archive whose array size 5 is not divisible by 441. -/
def fixBadRaw : FStore :=
  [(["r", "FSPeptide", "raw", "train-contactmaps.npz"],
    FileData.npz [("arry", ⟨[5], [1, 2, 3, 4, 5]⟩)])]

/-- A remote whose train archives hold one contactmap sample (441 elements)
but two labels; every other archive is empty. -/
def fixRemoteMismatch : Remote := fun url =>
  if url = "https://raw.githubusercontent.com/yngtodd/moles/master/fs-peptide/train-contactmaps.npz" then
    some [("arry", ⟨[441], List.replicate 441 0⟩)]
  else if url = "https://raw.githubusercontent.com/yngtodd/moles/master/fs-peptide/train-labels.npz" then
    some [("arry", ⟨[2], [0, 1]⟩)]
  else
    some [("arry", ⟨[0], []⟩)]

/-- The store produced by a full fetch from `fixRemoteMismatch`. -/
def mismatchStore : FStore :=
  match (FSPeptide.download fixRemoteMismatch [] "r").1 with
  | Except.ok f => f
  | Except.error _ => []

theorem np_index_error_shape (a : NpArray) (idx : Int) (e : PyErr)
    (h : np_index a idx = Except.error e) : e = PyErr.indexError := by
  simp only [np_index] at h
  split_ifs at h <;> cases h <;> rfl

theorem init_no_missing_error (remote : Remote) (home root partition : String) (fs : FStore)
    (hb : (FSPeptide.check_exists fs (os_path_expanduser home root)).1 = true) :
    (FSPeptide.init remote home fs root partition false).1 ≠
      Except.error (PyErr.runtimeError "Dataset not found. You can use download=True to download it") := by
  intro h
  simp only [FSPeptide.init, Bool.false_eq_true, if_false, hb, Bool.not_true] at h
  rcases hpf : partition_files partition with e | pr
  · simp only [hpf] at h
    obtain rfl := partition_files_error partition e hpf
    simp at h
  · obtain ⟨df, lf⟩ := pr
    simp only [hpf] at h
    rcases hda : np_load_npy fs (FSPeptide.processed_folder (os_path_expanduser home root) ++ [df])
      with e | A
    · simp only [hda] at h
      rcases np_load_npy_error _ _ _ hda with rfl | rfl <;> simp at h
    · simp only [hda] at h
      rcases hlb : np_load_npy fs (FSPeptide.processed_folder (os_path_expanduser home root) ++ [lf])
        with e | B
      · simp only [hlb] at h
        rcases np_load_npy_error _ _ _ hlb with rfl | rfl <;> simp at h
      · simp only [hlb] at h
        simp at h

/-- C1.  The claim says the invalid-partition error is raised before any
I/O.  In the code the partition dispatch sits after the (optional)
download step and after `_check_exists`, so on a complete cache the
constructor performs the six existence checks and only then raises the
invalid-partition `ValueError`; the error message does name the three
allowed values, and no file is downloaded, read or written before it. -/
theorem C1_invalid_partition_after_checks (remote : Remote) (home root partition : String)
    (fs : FStore)
    (hex : (FSPeptide.check_exists fs (os_path_expanduser home root)).1 = true)
    (hp1 : partition ≠ "train") (hp2 : partition ≠ "validation") (hp3 : partition ≠ "test") :
    FSPeptide.init remote home fs root partition false =
      (Except.error (PyErr.valueError "Partition must either be \x27train\x27, \x27validation\x27, or \x27test\x27."),
       (FSPeptide.processed_paths (os_path_expanduser home root)).map Event.existsCheck) ∧
    "Partition must either be \x27train\x27, \x27validation\x27, or \x27test\x27." =
      "Partition must either be \x27" ++ "train" ++ "\x27, \x27" ++ "validation" ++ "\x27, or \x27" ++
        "test" ++ "\x27." ∧
    ∀ e ∈ (FSPeptide.init remote home fs root partition false).2, ∃ p, e = Event.existsCheck p := by
  have he := existsAllChecks_eq fs (FSPeptide.processed_paths (os_path_expanduser home root)) hex
  have h1 : FSPeptide.init remote home fs root partition false =
      (Except.error (PyErr.valueError "Partition must either be \x27train\x27, \x27validation\x27, or \x27test\x27."),
       (FSPeptide.processed_paths (os_path_expanduser home root)).map Event.existsCheck) := by
    simp only [FSPeptide.init, FSPeptide.check_exists, Bool.false_eq_true, if_false, he,
      partition_files, if_neg hp1, if_neg hp2, if_neg hp3, Bool.not_true, List.nil_append]
  refine ⟨h1, rfl, ?_⟩
  rw [h1]
  intro e he2
  simp only [List.mem_map] at he2
  obtain ⟨p, _, rfl⟩ := he2
  exact ⟨p, rfl⟩

theorem C1_witness :
    (FSPeptide.check_exists fixStore (os_path_expanduser "h" "r")).1 = true ∧
    FSPeptide.init fixRemoteNone "h" fixStore "r" "bogus" false =
      (Except.error (PyErr.valueError "Partition must either be \x27train\x27, \x27validation\x27, or \x27test\x27."),
       (FSPeptide.processed_paths (os_path_expanduser "h" "r")).map Event.existsCheck) := by
  refine ⟨by decide, ?_⟩
  exact (C1_invalid_partition_after_checks fixRemoteNone "h" "r" "bogus" fixStore (by decide)
    (by decide) (by decide) (by decide)).1

/-- C1, counterexample to the claim as stated: on a complete cache,
constructing with partition `bogus` does raise the invalid-partition
error, but the trace at that point already holds the six existence
checks, i.e. I/O happened before the error was raised. -/
theorem C1_counterexample :
    (FSPeptide.init fixRemoteNone "h" fixStore "r" "bogus" false).1 =
      Except.error (PyErr.valueError "Partition must either be \x27train\x27, \x27validation\x27, or \x27test\x27.") ∧
    (FSPeptide.init fixRemoteNone "h" fixStore "r" "bogus" false).2 =
      (FSPeptide.processed_paths "r").map Event.existsCheck ∧
    (FSPeptide.processed_paths "r").map Event.existsCheck ≠ [] :=
  ⟨rfl, rfl, by decide⟩

/-- C2.  Every `item(i)` call on a constructed handle fails with
`AttributeError`: the constructor never assigns `self.transform`, so the
`if self.transform is not None` test raises before the pair can be
returned — even though both stored samples were successfully indexed. -/
theorem C2_getitem_attribute_error :
    fixHandle.map (fun ds => FSPeptide.getitem ds 0) =
      some (Except.error (PyErr.attributeError "transform")) ∧
    fixHandle.map (fun ds => np_index ds.data 0) = some (Except.ok ⟨[], [10]⟩) ∧
    fixHandle.map (fun ds => np_index ds.targets 0) = some (Except.ok ⟨[], [0]⟩) :=
  ⟨rfl, rfl, rfl⟩

/-- C3, amended.  The indexed accessor raises `IndexError` exactly for
indices outside `[-length(), length())`: numpy-style negative indices in
`[-length(), 0)` resolve to positions counted from the end, so `item(-1)`
does not raise the out-of-range error (the claim expected `[0, length())`).
Stated for any handle whose two arrays share their leading dimension. -/
theorem C3_index_error_iff (ds : FSPeptide) (idx : Int)
    (hlen : ds.data.shape.headD 0 = ds.targets.shape.headD 0) :
    FSPeptide.getitem ds idx = Except.error PyErr.indexError ↔
      (idx < -(FSPeptide.len ds : Int) ∨ (FSPeptide.len ds : Int) ≤ idx) := by
  rcases hd : np_index ds.data idx with e | cm
  · obtain rfl := np_index_error_shape ds.data idx e hd
    have hr := (np_index_error_iff ds.data idx).mp hd
    simp only [FSPeptide.getitem, hd, true_iff]
    exact hr
  · have hr : ¬(idx < -(FSPeptide.len ds : Int) ∨ (FSPeptide.len ds : Int) ≤ idx) := by
      intro hc
      have h2 := (np_index_error_iff ds.data idx).mpr hc
      rw [hd] at h2
      cases h2
    rcases ht : np_index ds.targets idx with e2 | tg
    · obtain rfl := np_index_error_shape ds.targets idx e2 ht
      have h2 := (np_index_error_iff ds.targets idx).mp ht
      rw [← hlen] at h2
      exact absurd h2 hr
    · cases htr : ds.transform with
      | none =>
        simp only [FSPeptide.getitem, hd, ht, htr, Except.error.injEq, reduceCtorEq, false_iff]
        exact hr
      | some t =>
        cases htt : ds.target_transform with
        | none =>
          simp only [FSPeptide.getitem, hd, ht, htr, htt, Except.error.injEq, reduceCtorEq,
            false_iff]
          exact hr
        | some tt =>
          simp only [FSPeptide.getitem, hd, ht, htr, htt, reduceCtorEq, false_iff]
          exact hr

theorem C3_witness :
    fixDS.data.shape.headD 0 = fixDS.targets.shape.headD 0 ∧
    FSPeptide.getitem fixDS 2 = Except.error PyErr.indexError := by
  refine ⟨rfl, ?_⟩
  exact (C3_index_error_iff fixDS 2 rfl).mpr (by decide)

/-- C3, counterexample to the claim as stated: on the constructed handle
(two samples), `item(-1)` does not raise the out-of-range error — the
numpy indexing step resolves `-1` to the last stored sample, and the call
then fails with the unrelated `AttributeError` of the uninitialized
transform attribute. -/
theorem C3_counterexample :
    fixHandle.map (fun ds => FSPeptide.getitem ds (-1)) =
      some (Except.error (PyErr.attributeError "transform")) ∧
    fixHandle.map (fun ds => np_index ds.data (-1)) = some (Except.ok ⟨[], [20]⟩) ∧
    some (Except.error (PyErr.attributeError "transform") : Except PyErr (NpArray × NpArray)) ≠
      some (Except.error PyErr.indexError) :=
  ⟨rfl, rfl, by simp⟩

/-- C4.  With `download=False`, construction fails with the
dataset-not-found `RuntimeError` (whose message instructs retrying with
`download=True`) precisely when the six-file existence check fails, and
that check holds precisely when all six processed files (two per
partition, three partitions) exist. -/
theorem C4_missing_cache (remote : Remote) (home root partition : String) (fs : FStore) :
    ((FSPeptide.init remote home fs root partition false).1 =
        Except.error (PyErr.runtimeError "Dataset not found. You can use download=True to download it") ↔
      (FSPeptide.check_exists fs (os_path_expanduser home root)).1 = false) ∧
    ((FSPeptide.check_exists fs (os_path_expanduser home root)).1 = true ↔
      ∀ p ∈ FSPeptide.processed_paths (os_path_expanduser home root), pathExists fs p = true) := by
  constructor
  · constructor
    · intro h
      cases hbv : (FSPeptide.check_exists fs (os_path_expanduser home root)).1 with
      | false => rfl
      | true => exact absurd h (init_no_missing_error remote home root partition fs hbv)
    · intro h
      simp only [FSPeptide.init, Bool.false_eq_true, if_false, h, Bool.not_false, if_true]
  · rw [show (FSPeptide.check_exists fs (os_path_expanduser home root)).1 =
        (FSPeptide.processed_paths (os_path_expanduser home root)).all (fun p => pathExists fs p)
      from existsAllChecks_fst fs _, List.all_eq_true]

theorem C4_witness :
    (FSPeptide.init fixRemoteNone "h" ([] : FStore) "r" "train" false).1 =
      Except.error (PyErr.runtimeError "Dataset not found. You can use download=True to download it") :=
  (C4_missing_cache fixRemoteNone "h" "r" "train" ([] : FStore)).1.mpr (by decide)

/-- C5.  The fetch-and-process procedure is idempotent: when the six
processed files already exist it returns at once with the store untouched
and a trace holding nothing but the six existence checks (no transfer, no
directory creation, no write); consequently a second invocation right
after any successful invocation is such a no-op. -/
theorem C5_download_idempotent (remote : Remote) (fs fs2 : FStore) (root : String)
    (es : List Event) :
    ((FSPeptide.check_exists fs root).1 = true →
      FSPeptide.download remote fs root =
        (Except.ok fs, (FSPeptide.processed_paths root).map Event.existsCheck)) ∧
    (FSPeptide.download remote fs root = (Except.ok fs2, es) →
      FSPeptide.download remote fs2 root =
        (Except.ok fs2, (FSPeptide.processed_paths root).map Event.existsCheck)) := by
  constructor
  · exact download_shortcircuit remote fs root
  · intro h
    exact download_shortcircuit remote fs2 root (download_ok_check remote fs fs2 root es h)

theorem C5_witness :
    (FSPeptide.check_exists fixStore "r").1 = true ∧
    FSPeptide.download fixRemoteNone fixStore "r" =
      (Except.ok fixStore, (FSPeptide.processed_paths "r").map Event.existsCheck) ∧
    FSPeptide.download fixRemoteNone fixStore "r" =
      (Except.ok fixStore, (FSPeptide.processed_paths "r").map Event.existsCheck) := by
  have h := C5_download_idempotent fixRemoteNone fixStore fixStore "r"
    ((FSPeptide.processed_paths "r").map Event.existsCheck)
  have h1 := h.1 (by decide)
  exact ⟨by decide, h1, h.2 h1⟩

/-- C6.  `read_image_file` is exactly: load the archive entry `arry` and
reshape it to `(-1, 21, 21, 1)` — so on a divisible size the result has
shape `(count, 21, 21, 1)` with the data untouched — and `read_label_file`
returns the stored `arry` entry unchanged. -/
theorem C6_read_files (fs : FStore) (p q : FPath) (ea eb : List (String × NpArray))
    (a b : NpArray)
    (hpa : fsLookup fs p = some (FileData.npz ea)) (ha : npzGet ea "arry" = Except.ok a)
    (hqb : fsLookup fs q = some (FileData.npz eb)) (hb : npzGet eb "arry" = Except.ok b) :
    read_image_file fs p = np_reshape_images a ∧
    (a.data.length % 441 = 0 →
      read_image_file fs p = Except.ok ⟨[a.data.length / 441, 21, 21, 1], a.data⟩) ∧
    read_label_file fs q = Except.ok b := by
  have h1 : read_image_file fs p = np_reshape_images a := by
    simp only [read_image_file, np_load_npz, hpa, ha]
  refine ⟨h1, ?_, ?_⟩
  · intro hd
    rw [h1]
    unfold np_reshape_images
    rw [if_pos hd]
  · simp only [read_label_file, np_load_npz, hqb, hb]

theorem C6_witness :
    fsLookup fixRaw ["r", "FSPeptide", "raw", "train-contactmaps.npz"] =
      some (FileData.npz [("arry", ⟨[441], List.replicate 441 0⟩)]) ∧
    read_image_file fixRaw ["r", "FSPeptide", "raw", "train-contactmaps.npz"] =
      Except.ok ⟨[1, 21, 21, 1], List.replicate 441 0⟩ ∧
    read_label_file fixRaw ["r", "FSPeptide", "raw", "train-labels.npz"] =
      Except.ok ⟨[2], [0, 1]⟩ := by
  have h := C6_read_files fixRaw ["r", "FSPeptide", "raw", "train-contactmaps.npz"]
    ["r", "FSPeptide", "raw", "train-labels.npz"]
    [("arry", ⟨[441], List.replicate 441 0⟩)] [("arry", ⟨[2], [0, 1]⟩)]
    ⟨[441], List.replicate 441 0⟩ ⟨[2], [0, 1]⟩ rfl rfl rfl rfl
  exact ⟨rfl, h.2.1 (by decide), h.2.2⟩

/-- C7, amended.  `length()` equals the leading dimension of the feature
array loaded from the partition's processed contactmap file; it equals the
label count only under the extra assumption that the two stored arrays
share their leading dimension — an invariant the published dataset
satisfies but which the code itself never checks or enforces. -/
theorem C7_len_amended (remote : Remote) (home root partition : String) (fs : FStore)
    (ds : FSPeptide) (es : List Event) (df lf : String) (A B : NpArray)
    (hinit : FSPeptide.init remote home fs root partition false = (Except.ok ds, es))
    (hpf : partition_files partition = Except.ok (df, lf))
    (hA : np_load_npy fs (FSPeptide.processed_folder (os_path_expanduser home root) ++ [df]) =
      Except.ok A)
    (hB : np_load_npy fs (FSPeptide.processed_folder (os_path_expanduser home root) ++ [lf]) =
      Except.ok B) :
    FSPeptide.len ds = A.shape.headD 0 ∧
    (A.shape.headD 0 = B.shape.headD 0 → FSPeptide.len ds = B.shape.headD 0) := by
  simp only [FSPeptide.init, Bool.false_eq_true, if_false, hpf, hA, hB] at hinit
  by_cases hb : (FSPeptide.check_exists fs (os_path_expanduser home root)).1 = true
  · simp only [hb, Bool.not_true, Bool.false_eq_true, if_false] at hinit
    have hds : ds = ⟨os_path_expanduser home root, partition, A, B, none, none⟩ := by
      have h2 := congrArg Prod.fst hinit
      exact (Except.ok.inj h2).symm
    subst hds
    exact ⟨rfl, fun hh => hh⟩
  · have hbf : (FSPeptide.check_exists fs (os_path_expanduser home root)).1 = false := by
      revert hb
      cases (FSPeptide.check_exists fs (os_path_expanduser home root)).1 <;> simp
    simp only [hbf, Bool.not_false, if_true] at hinit
    simp at hinit

def fixInitRes : Except PyErr FSPeptide × List Event :=
  FSPeptide.init fixRemoteNone "h" fixStore "r" "train" false

theorem C7_witness :
    FSPeptide.init fixRemoteNone "h" fixStore "r" "train" false = (Except.ok fixDS, fixInitRes.2) ∧
    FSPeptide.len fixDS = 2 ∧ fixDS.targets.shape.headD 0 = 2 := by
  have h := C7_len_amended fixRemoteNone "h" "r" "train" fixStore fixDS fixInitRes.2
    FSPeptide.training_contactmap_file FSPeptide.training_label_file
    ⟨[2], [10, 20]⟩ ⟨[2], [0, 1]⟩ rfl rfl rfl rfl
  exact ⟨rfl, h.2 rfl, rfl⟩

/-- C7, counterexample to the claim as stated: a remote whose train
archives hold one contactmap sample (441 elements) but two labels is
fetched and processed without complaint, and the resulting handle has
`length() = 1` while holding 2 label samples — a successfully constructed
handle violating `len(features) == len(labels)`. -/
theorem C7_counterexample :
    (FSPeptide.download fixRemoteMismatch [] "r").1 = Except.ok mismatchStore ∧
    (match (FSPeptide.init fixRemoteMismatch "h" mismatchStore "r" "train" false).1 with
     | Except.ok ds => some (FSPeptide.len ds, ds.targets.shape.headD 0)
     | Except.error _ => none) = some (1, 2) ∧
    (1 : Nat) ≠ 2 :=
  ⟨rfl, rfl, by decide⟩

/-- C8.  The summary string contains the sample count, the partition name
and the root path (each conjunct exhibits the surrounding text).  The
function is pure — it maps the handle alone to a string, touching neither
the handle nor any store — so two calls on the same handle are the same
string by construction. -/
theorem C8_repr_fields (ds : FSPeptide) :
    FSPeptide.repr ds =
      "Dataset FSPeptide" ++ "\n" ++
        "    Number of datapoints: " ++ toString (FSPeptide.len ds) ++ "\n" ++
        "    Split: " ++ ds.partition ++ "\n" ++
        "    Root Location: " ++ ds.root ++ "\n" ∧
    (∃ s t, FSPeptide.repr ds = s ++ toString (FSPeptide.len ds) ++ t) ∧
    (∃ s t, FSPeptide.repr ds = s ++ ds.partition ++ t) ∧
    (∃ s t, FSPeptide.repr ds = s ++ ds.root ++ t) := by
  refine ⟨rfl, ?_, ?_, ?_⟩
  · refine ⟨"Dataset FSPeptide" ++ "\n" ++ "    Number of datapoints: ",
      "\n" ++ "    Split: " ++ ds.partition ++ "\n" ++ "    Root Location: " ++ ds.root ++ "\n",
      ?_⟩
    simp only [FSPeptide.repr, string_append_assoc]
  · refine ⟨"Dataset FSPeptide" ++ "\n" ++ "    Number of datapoints: " ++
        toString (FSPeptide.len ds) ++ "\n" ++ "    Split: ",
      "\n" ++ "    Root Location: " ++ ds.root ++ "\n", ?_⟩
    simp only [FSPeptide.repr, string_append_assoc]
  · refine ⟨"Dataset FSPeptide" ++ "\n" ++ "    Number of datapoints: " ++
        toString (FSPeptide.len ds) ++ "\n" ++ "    Split: " ++ ds.partition ++ "\n" ++
        "    Root Location: ",
      "\n", ?_⟩
    simp only [FSPeptide.repr, string_append_assoc]

/-- C9.  `extract_array` loads and discards the archive entry: with
`remove_finished = False` (the repository only ever passes `False`) the
store comes back identical; with `remove_finished = True` its only store
effect is deleting the source archive — the deleted path no longer
resolves, every other path resolves as before. -/
theorem C9_extract_frame (fs : FStore) (p : FPath) (entries : List (String × NpArray))
    (a : NpArray)
    (hp : fsLookup fs p = some (FileData.npz entries))
    (ha : npzGet entries "arry" = Except.ok a) :
    FSPeptide.extract_array fs p false =
      (Except.ok (), fs, [Event.printMsg ("Extracting " ++ fpathStr p), Event.readFile p]) ∧
    FSPeptide.extract_array fs p true =
      (Except.ok (), fsRemove fs p,
       [Event.printMsg ("Extracting " ++ fpathStr p), Event.readFile p, Event.unlink p]) ∧
    fsLookup (fsRemove fs p) p = none ∧
    (∀ q, q ≠ p → fsLookup (fsRemove fs p) q = fsLookup fs q) := by
  refine ⟨?_, ?_, fsLookup_fsRemove_self fs p, fun q hq => fsLookup_fsRemove_ne fs p q hq⟩
  · simp only [FSPeptide.extract_array, np_load_npz, hp, ha, Bool.false_eq_true, if_false]
  · simp only [FSPeptide.extract_array, np_load_npz, hp, ha, if_true]

theorem C9_witness :
    fsLookup fixRaw ["r", "FSPeptide", "raw", "train-labels.npz"] =
      some (FileData.npz [("arry", ⟨[2], [0, 1]⟩)]) ∧
    FSPeptide.extract_array fixRaw ["r", "FSPeptide", "raw", "train-labels.npz"] false =
      (Except.ok (), fixRaw,
       [Event.printMsg ("Extracting " ++ fpathStr ["r", "FSPeptide", "raw", "train-labels.npz"]),
        Event.readFile ["r", "FSPeptide", "raw", "train-labels.npz"]]) := by
  have h := C9_extract_frame fixRaw ["r", "FSPeptide", "raw", "train-labels.npz"]
    [("arry", ⟨[2], [0, 1]⟩)] ⟨[2], [0, 1]⟩ rfl rfl
  exact ⟨rfl, h.1⟩

/-- C10.  The reshape of `read_image_file` has precondition 441 ∣ size:
on archives whose `arry` has a multiple of 441 elements it returns shape
`(size / 441, 21, 21, 1)` with the data untouched, and on any other size
it fails with numpy's reshape `ValueError` instead of returning an
array. -/
theorem C10_reshape_precondition (fs : FStore) (p : FPath)
    (entries : List (String × NpArray)) (a : NpArray)
    (hp : fsLookup fs p = some (FileData.npz entries))
    (ha : npzGet entries "arry" = Except.ok a) :
    (a.data.length % 441 = 0 →
      read_image_file fs p = Except.ok ⟨[a.data.length / 441, 21, 21, 1], a.data⟩) ∧
    (a.data.length % 441 ≠ 0 →
      read_image_file fs p =
        Except.error (PyErr.valueError "cannot reshape array into shape (21,21,1)")) := by
  have h1 : read_image_file fs p = np_reshape_images a := by
    simp only [read_image_file, np_load_npz, hp, ha]
  constructor
  · intro hd
    rw [h1]
    unfold np_reshape_images
    rw [if_pos hd]
  · intro hd
    rw [h1]
    unfold np_reshape_images
    rw [if_neg hd]

theorem C10_witness :
    fsLookup fixBadRaw ["r", "FSPeptide", "raw", "train-contactmaps.npz"] =
      some (FileData.npz [("arry", ⟨[5], [1, 2, 3, 4, 5]⟩)]) ∧
    read_image_file fixBadRaw ["r", "FSPeptide", "raw", "train-contactmaps.npz"] =
      Except.error (PyErr.valueError "cannot reshape array into shape (21,21,1)") := by
  have h := C10_reshape_precondition fixBadRaw ["r", "FSPeptide", "raw", "train-contactmaps.npz"]
    [("arry", ⟨[5], [1, 2, 3, 4, 5]⟩)] ⟨[5], [1, 2, 3, 4, 5]⟩ rfl rfl
  exact ⟨rfl, h.2 (by decide)⟩
